import Mathlib

/-!
# Verification of the profile-merging and transaction-lifecycle core

A shallow embedding, in Lean 4, of the profile capture / merge engine,
the profile queue consumer, the frame-signal reconciler and the idle
transaction lifecycle controller of a React Native monitoring SDK.
Pure functions of the source are translated into Lean functions;
stateful methods become explicit state-passing functions; the event
loop interleavings relevant to the claims (timer callbacks, inbound
native events) are modelled by explicit scheduling parameters.

JavaScript objects used as string-keyed maps are modelled as
association lists whose lookup realises the JS property-lookup
semantics; object spread is the function `spreadMerge` below.
-/

namespace SentryRN

/-- Log levels of the logger used by the source (`logger.log`,
`logger.warn`, `logger.error`). -/
inductive LogLevel
  | log
  | warn
  | error
deriving DecidableEq, Repr

/-! ## Thread CPU profiles and the merge in `addNativeThreadCpuProfileToHermes` -/

/-- A frame of a thread CPU profile. The merge constructs native-origin
frames out of `function`, `instruction_addr` and a platform tag, so those
are the fields modelled. -/
structure ThreadCpuFrame where
  function : Option String
  instruction_addr : Option String
  platform : Option String
deriving DecidableEq, Repr

/-- A sample of a thread CPU profile: a stack index, the sampled thread id
and the elapsed time field carried along unchanged by the merge spread. -/
structure ThreadCpuSample where
  stack_id : Nat
  thread_id : String
  elapsed_since_start_ns : String
deriving DecidableEq, Repr

/-- Value of one `thread_metadata` entry. -/
structure ThreadMetadataEntry where
  name : Option String
  priority : Option Nat
deriving DecidableEq, Repr

/-- Value of one `queue_metadata` entry. -/
structure QueueMetadataEntry where
  label : String
deriving DecidableEq, Repr

/-- The thread CPU profile shape consumed and produced by
`addNativeThreadCpuProfileToHermes`: frames, stacks (lists of frame
indices), samples, and the two string-keyed metadata objects. -/
structure ThreadCpuProfile where
  frames : List ThreadCpuFrame
  «stacks» : List (List Nat)
  samples : List ThreadCpuSample
  thread_metadata : List (String × ThreadMetadataEntry)
  queue_metadata : List (String × QueueMetadataEntry)
deriving DecidableEq, Repr

/-- JS object spread `\x7b ...a, ...b \x7d` on string-keyed objects, modelled at
the level of lookups: the result holds the entry of `b` for every key of
`b`, and the entry of `a` for keys only in `a`. -/
def spreadMerge {V : Type} (a b : List (String × V)) : List (String × V) :=
  a.filter (fun p => (b.lookup p.1).isNone) ++ b

/-- `addNativeThreadCpuProfileToHermes` from the profiling integration:
merges a native thread CPU profile into the Hermes (JS) one. Metadata
objects are spread with the Hermes entries written last; native frames are
re-created (tagged `cocoa` on iOS, `Platform.OS` is the `platformIsIOS`
argument); native stacks are offset by the Hermes frame count; native
samples on the active JS thread are dropped and the remaining ones have
their stack index offset by the Hermes stack count. -/
def addNativeThreadCpuProfileToHermes (platformIsIOS : Bool)
    (hermes native : ThreadCpuProfile)
    (hermes_active_thread_id : Option String) : ThreadCpuProfile :=
  let framesOffset := hermes.frames.length
  let stacksOffset := hermes.«stacks».length
  { thread_metadata := spreadMerge native.thread_metadata hermes.thread_metadata
    queue_metadata := spreadMerge native.queue_metadata hermes.queue_metadata
    frames := hermes.frames ++ native.frames.map (fun frame =>
      { function := frame.function
        instruction_addr := frame.instruction_addr
        platform := if platformIsIOS then some "cocoa" else none })
    «stacks» := hermes.«stacks» ++ native.«stacks».map (fun stack =>
      stack.map (fun frameId => frameId + framesOffset))
    samples := hermes.samples ++ ((native.samples.filter
      (fun sample => some sample.thread_id != hermes_active_thread_id)).map
      (fun sample => { sample with stack_id := stacksOffset + sample.stack_id })) }

/-! ## The profiling integration state machine (`HermesProfiling`)

Profile identifiers are produced by `uuid4` in the source; the embedding
models that generator as a fresh-identifier supply (`nextProfileId`):
each draw returns the current counter and increments it, capturing the
collision-freedom of fresh uuids. The native bridge and the Hermes trace
conversion pipeline are outside the sources, so the outcomes of
`NATIVE.startProfiling` and of the whole `stopProfiling` pipeline enter
as explicit `Option` parameters, exactly at the points the source
consults them. -/

/-- Modelled from the spec: the Profile Queue (`PROFILE_QUEUE` of the cache
module, which is not among the sources) is a bounded store keyed by
profile identifier; insertion evicts the oldest entry when the capacity
bound is exceeded. The exact bound is configurable; a concrete value is
fixed here. -/
def PROFILE_QUEUE_CAPACITY : Nat := 20

/-- Modelled from the spec: insertion into the Profile Queue, evicting the
oldest entries when the capacity bound is exceeded. -/
def queueAdd (key : Nat) (value : ThreadCpuProfile)
    (queue : List (Nat × ThreadCpuProfile)) : List (Nat × ThreadCpuProfile) :=
  let grown := queue ++ [(key, value)]
  if PROFILE_QUEUE_CAPACITY < grown.length then
    grown.drop (grown.length - PROFILE_QUEUE_CAPACITY)
  else grown

/-- Modelled from the spec: lookup of a Profile Queue entry by identifier. -/
def queueGet (key : Nat) (queue : List (Nat × ThreadCpuProfile)) :
    Option ThreadCpuProfile :=
  queue.lookup key

/-- Modelled from the spec: removal of a Profile Queue entry by identifier;
removing an absent identifier is a no-op. -/
def queueDelete (key : Nat) (queue : List (Nat × ThreadCpuProfile)) :
    List (Nat × ThreadCpuProfile) :=
  queue.filter (fun entry => entry.1 != key)

/-- The mutable state of the `HermesProfiling` integration instance:
`_currentProfile` (identifier and start timestamp in nanoseconds),
whether `_currentProfileTimeout` is armed, the shared `PROFILE_QUEUE`,
the fresh-identifier supply standing for `uuid4`, and the logger
output. -/
structure ProfilingState where
  currentProfile : Option (Nat × Nat)
  timeoutArmed : Bool
  queue : List (Nat × ThreadCpuProfile)
  nextProfileId : Nat
  logs : List (LogLevel × String)
deriving DecidableEq, Repr

/-- `_startNewProfile`: if the native profiler started (the start timestamp
parameter is present), allocate a fresh identifier and record the session;
otherwise leave the state unchanged. -/
def startNewProfile (startProfilingResult : Option Nat)
    (s : ProfilingState) : ProfilingState :=
  match startProfilingResult with
  | none => s
  | some startTimestampNs =>
    { s with
      currentProfile := some (s.nextProfileId, startTimestampNs)
      nextProfileId := s.nextProfileId + 1
      logs := s.logs ++ [(LogLevel.log, "[Profiling] started profiling")] }

/-- `_finishCurrentProfile`: clears the hard-stop timeout, is a no-op when
no session is active, and otherwise stops the profiler (`stopResult` is
the outcome of the `stopProfiling` pipeline): on failure the session is
discarded with a warning, on success the profile is enqueued under the
session identifier. Either way `_currentProfile` is cleared. -/
def finishCurrentProfile (stopResult : Option ThreadCpuProfile)
    (s : ProfilingState) : ProfilingState :=
  let s0 := { s with timeoutArmed := false }
  match s0.currentProfile with
  | none => s0
  | some (profileId, _startTimestampNs) =>
    match stopResult with
    | none =>
      { s0 with
        currentProfile := none
        logs := s0.logs ++ [(LogLevel.warn, "[Profiling] Stop failed. Cleaning up...")] }
    | some profile =>
      { s0 with
        currentProfile := none
        queue := queueAdd profileId profile s0.queue
        logs := s0.logs ++ [(LogLevel.log, "[Profiling] finished profiling")] }

/-- `_startCurrentProfile`: unconditionally force-finishes any existing
session first, then checks that the span is currently active and that
profiling should start (sampling and options checks), arms the hard-stop
timeout and starts a new profile. The boolean parameters are the outcomes
of `isCurrentlyActiveSpan` and `_shouldStartProfiling`. -/
def startCurrentProfile (isCurrentlyActive shouldStartProfiling : Bool)
    (startProfilingResult : Option Nat) (stopResult : Option ThreadCpuProfile)
    (s : ProfilingState) : ProfilingState :=
  let s1 := finishCurrentProfile stopResult s
  if !isCurrentlyActive then s1
  else if !shouldStartProfiling then s1
  else
    let s2 := { s1 with timeoutArmed := true }
    startNewProfile startProfilingResult s2

/-! ## `_createProfileEventFor`: matching queued profiles to reports -/

/-- The `profile` context object of a transaction event; `profile_id` is
absent when the key is missing or not a string (the source rejects both
through one `typeof` check). Identifiers are the fresh-supply naturals. -/
structure ProfileContext where
  profile_id : Option Nat
deriving DecidableEq, Repr

/-- The `contexts` object of a transaction event, restricted to the keys
read by `_createProfileEventFor`: the entry under the key `profile` and
the entry under the literal key `.profile` (the latter is spelled with a
leading dot in the source guard). -/
structure TransactionContexts where
  profile : Option ProfileContext
  dotProfile : Option ProfileContext
deriving DecidableEq, Repr

/-- A transaction event, restricted to the fields `_createProfileEventFor`
touches. -/
structure TransactionEvent where
  event_id : Option Nat
  contexts : Option TransactionContexts
deriving DecidableEq, Repr

/-- The profile identifier read from a report:
`profiledTransaction?.contexts?.[profile]?.[profile_id]`. -/
def eventProfileId (ev : TransactionEvent) : Option Nat :=
  ev.contexts.bind (fun c => c.profile.bind (fun p => p.profile_id))

/-- Modelled from the spec: `enrichCombinedProfileWithEventContext` (utils
module, not among the sources) enriches the dequeued profile with report
context; here it pairs the profile with its identifier and the report. -/
structure EnrichedProfileEvent where
  profile_id : Nat
  profile : ThreadCpuProfile
  report : TransactionEvent
deriving DecidableEq, Repr

/-- Modelled from the spec: the enrichment step, pairing the dequeued
profile with its identifier and the report it belongs to. -/
def enrichCombinedProfileWithEventContext (profileId : Nat)
    (profile : ThreadCpuProfile) (ev : TransactionEvent) : EnrichedProfileEvent :=
  { profile_id := profileId, profile := profile, report := ev }

/-- `_createProfileEventFor`: reads the profile identifier from the report;
without one it returns `none`. With one, it deletes the `profile` context
key when the guard on the literal key `.profile` holds, dequeues the
queue entry (get then delete), and returns `none` on a queue miss or the
enriched profile on a hit. The result is the produced profile event, the
(possibly stripped) report, and the remaining queue. -/
def createProfileEventFor (ev : TransactionEvent)
    (queue : List (Nat × ThreadCpuProfile)) :
    Option EnrichedProfileEvent × TransactionEvent × List (Nat × ThreadCpuProfile) :=
  match eventProfileId ev with
  | none => (none, ev, queue)
  | some profileId =>
    let ev1 :=
      if (ev.contexts.bind (fun c => c.dotProfile)).isSome then
        { ev with contexts := ev.contexts.map (fun c => { c with profile := none }) }
      else ev
    let profile := queueGet profileId queue
    let queue1 := queueDelete profileId queue
    match profile with
    | none => (none, ev1, queue1)
    | some p => (some (enrichCombinedProfileWithEventContext profileId p ev1), ev1, queue1)

/-! ## Frame-signal reconciler (`sentryeventemitterfallback.ts`)

`waitForNativeResponseOrFallback` runs `checkNativeResponse` immediately;
when the confirming-event flag is not set yet, the first run schedules a
single re-check through `setTimeout(checkNativeResponse, 3000)`. The
confirming in-process event (`NewFrameEventName` listener installed by
`initAsync`) sets the flag while listening mode is armed. The event-loop
interleavings relevant to one cycle are: the confirming event is
processed before the immediate check, between the two checks, or never;
`ConfirmingEventArrival` enumerates them. -/

/-- An event emitted on the fallback path
(`DeviceEventEmitter.emit(NewFrameEventName, ...)`). -/
structure FallbackEvent where
  newFrameTimestampInSeconds : ℚ
  isFallback : Bool
deriving DecidableEq, Repr

/-- The closure state of one `waitForNativeResponseOrFallback` cycle:
the `NativeEmitterCalled` and `isListening` flags, the
`firstAttemptCompleted` flag of the cycle, the delay (in milliseconds) of
a scheduled re-check if one is pending, and the emitted events. -/
structure ListenerCycleState where
  nativeEmitterCalled : Bool
  isListening : Bool
  firstAttemptCompleted : Bool
  pendingRecheckDelayMs : Option Nat
  emitted : List FallbackEvent
deriving DecidableEq, Repr

/-- The `NewFrameEventName` listener installed by `initAsync`: sets the
confirming-event flag, but only while listening mode is armed. -/
def onConfirmingEvent (s : ListenerCycleState) : ListenerCycleState :=
  if s.isListening then { s with nativeEmitterCalled := true } else s

/-- One run of `checkNativeResponse`: if the confirming event already
arrived, consume the flag and disarm listening (no emission); otherwise on
the first attempt schedule the single 3-second re-check; otherwise emit
the fallback event carrying the precomputed timestamp, tagged as
fallback, and disarm listening. -/
def checkNativeResponse (fallbackSeconds : ℚ)
    (s : ListenerCycleState) : ListenerCycleState :=
  if s.nativeEmitterCalled then
    { s with nativeEmitterCalled := false, isListening := false }
  else if !s.firstAttemptCompleted then
    { s with firstAttemptCompleted := true, pendingRecheckDelayMs := some 3000 }
  else
    { s with
      isListening := false
      emitted := s.emitted ++
        [{ newFrameTimestampInSeconds := fallbackSeconds, isFallback := true }] }

/-- The event-loop orderings of the confirming event relative to the two
runs of `checkNativeResponse` within one cycle. -/
inductive ConfirmingEventArrival
  | beforeFirstCheck
  | beforeSecondCheck
  | never
deriving DecidableEq, Repr

/-- One full `waitForNativeResponseOrFallback` cycle, started with
listening mode armed (by `startListenerAsync`): the immediate check runs
first; when it scheduled a re-check, the timer fires once and the check
runs again, with the confirming event possibly processed in between. -/
def waitForNativeResponseOrFallback (fallbackSeconds : ℚ)
    (arrival : ConfirmingEventArrival) : ListenerCycleState :=
  let s0 : ListenerCycleState :=
    { nativeEmitterCalled := false, isListening := true
      firstAttemptCompleted := false, pendingRecheckDelayMs := none
      emitted := [] }
  let s1 := if arrival = ConfirmingEventArrival.beforeFirstCheck then
    onConfirmingEvent s0 else s0
  let s2 := checkNativeResponse fallbackSeconds s1
  match s2.pendingRecheckDelayMs with
  | none => s2
  | some _ =>
    let s3 := { s2 with pendingRecheckDelayMs := none }
    let s4 := if arrival = ConfirmingEventArrival.beforeSecondCheck then
      onConfirmingEvent s3 else s3
    checkNativeResponse fallbackSeconds s4

/-! ## `ReactNativeTracing`: app start, user interactions, route transactions -/

/-- The response of `NATIVE.fetchNativeAppStart`: the app start time as an
epoch in milliseconds, the cold/warm classification, and whether the data
was fetched before. -/
structure NativeAppStartResponse where
  appStartTime : ℚ
  isColdStart : Bool
  didFetchAppStart : Bool
deriving DecidableEq, Repr

/-- A span held by a transaction span recorder, restricted to the fields
the lifecycle callbacks read: operation, identifier and timestamps. -/
structure RecordedSpan where
  spanId : Nat
  op : Option String
  startTimestamp : ℚ
  endTimestamp : Option ℚ
deriving DecidableEq, Repr

/-- A child span added through `transaction.startChild`. -/
structure ChildSpanData where
  description : String
  op : String
  startTimestamp : ℚ
  endTimestamp : Option ℚ
deriving DecidableEq, Repr

/-- The `route` entry of a transaction data bag
(`transaction.data?.route`). -/
structure RouteData where
  hasBeenSeen : Bool
deriving DecidableEq, Repr

/-- An idle transaction, restricted to the fields the modelled lifecycle
methods touch: identity, name and operation, sampling decision, start
timestamp, the recorded spans, the child spans it started, its
measurements (name, value, unit) and the route data bag. -/
structure IdleTransactionModel where
  spanId : Nat
  name : String
  op : String
  sampled : Option Bool
  startTimestamp : ℚ
  spanRecorder : Option (List RecordedSpan)
  children : List ChildSpanData
  measurements : List (String × ℚ × String)
  routeData : Option RouteData
deriving DecidableEq, Repr

/-- Modelled from the spec: the cold app start measurement name
(`APP_START_COLD` of the measurements module, not among the sources). -/
def APP_START_COLD : String := "app_start_cold"

/-- Modelled from the spec: the warm app start measurement name
(`APP_START_WARM` of the measurements module, not among the sources). -/
def APP_START_WARM : String := "app_start_warm"

/-- Modelled from the spec: the cold app start span operation
(`APP_START_COLD_OP` of the ops module, not among the sources). -/
def APP_START_COLD_OP : String := "app.start.cold"

/-- Modelled from the spec: the warm app start span operation
(`APP_START_WARM_OP` of the ops module, not among the sources). -/
def APP_START_WARM_OP : String := "app.start.warm"

/-- `ReactNativeTracing._maxAppStart`: app starts of 60000 milliseconds or
more are filtered out. -/
def maxAppStart : ℚ := 60000

/-- `_getAppStartDurationMilliseconds`: undefined without an app start
finish timestamp (a JS falsiness check, so a zero timestamp also counts
as unset), otherwise the finish timestamp in seconds times 1000 minus the
native app start epoch in milliseconds. -/
def getAppStartDurationMilliseconds (appStartFinishTimestamp : Option ℚ)
    (appStart : NativeAppStartResponse) : Option ℚ :=
  match appStartFinishTimestamp with
  | none => none
  | some t => if t = 0 then none else some (t * 1000 - appStart.appStartTime)

/-- Updates the first recorded span with the given operation to the new
start timestamp, returning the updated list and the updated span. -/
def setFirstSpanStart (opName : String) (newStart : ℚ) :
    List RecordedSpan → List RecordedSpan × Option RecordedSpan
  | [] => ([], none)
  | span :: rest =>
    if span.op = some opName then
      let updated := { span with startTimestamp := newStart }
      (updated :: rest, some updated)
    else
      let (rest1, found) := setFirstSpanStart opName newStart rest
      (span :: rest1, found)

/-- Modelled from the spec: `setSpanDurationAsMeasurement` (tracing utils
module, not among the sources) sets a measurement to the span duration in
milliseconds when the span has both timestamps. -/
def setSpanDurationAsMeasurement (measurementName : String)
    (span : RecordedSpan) (tx : IdleTransactionModel) : IdleTransactionModel :=
  match span.endTimestamp with
  | none => tx
  | some endTs =>
    { tx with measurements := tx.measurements ++
        [(measurementName, (endTs - span.startTimestamp) * 1000, "millisecond")] }

/-- Rebases the first recorded span with the given operation onto the app
start timestamp and records its duration as the named measurement, as
`_addAppStartData` does for the initial-display and full-display spans. -/
def rebaseSpanAndMeasure (opName measurementName : String) (newStart : ℚ)
    (tx : IdleTransactionModel) : IdleTransactionModel :=
  match tx.spanRecorder with
  | none => tx
  | some spans =>
    let (spans1, found) := setFirstSpanStart opName newStart spans
    let tx1 := { tx with spanRecorder := some spans1 }
    match found with
    | none => tx1
    | some span => setSpanDurationAsMeasurement measurementName span tx1

/-- `_addAppStartData`: computes the app start duration (warns and stops
when it is unavailable or zero, both through one JS falsiness check),
discards durations of `_maxAppStart` (60000 ms) or more, and otherwise
rebases the transaction and the initial/full display spans onto the app
start time, starts a cold or warm app start child span matching
`isColdStart`, and sets the matching cold or warm measurement to the
duration in milliseconds. -/
def addAppStartData (appStartFinishTimestamp : Option ℚ)
    (tx : IdleTransactionModel) (appStart : NativeAppStartResponse) :
    IdleTransactionModel :=
  match getAppStartDurationMilliseconds appStartFinishTimestamp appStart with
  | none => tx
  | some appStartDurationMilliseconds =>
    if appStartDurationMilliseconds = 0 then tx
    else if maxAppStart ≤ appStartDurationMilliseconds then tx
    else
      let appStartTimeSeconds := appStart.appStartTime / 1000
      let tx1 := { tx with startTimestamp := appStartTimeSeconds }
      let tx2 := rebaseSpanAndMeasure "ui.load.initial_display"
        "time_to_initial_display" appStartTimeSeconds tx1
      let tx3 := rebaseSpanAndMeasure "ui.load.full_display"
        "time_to_full_display" appStartTimeSeconds tx2
      let appStartChild : ChildSpanData :=
        { description := if appStart.isColdStart then "Cold App Start" else "Warm App Start"
          op := if appStart.isColdStart then APP_START_COLD_OP else APP_START_WARM_OP
          startTimestamp := appStartTimeSeconds
          endTimestamp := appStartFinishTimestamp }
      let tx4 := { tx3 with children := tx3.children ++ [appStartChild] }
      { tx4 with measurements := tx4.measurements ++
          [(if appStart.isColdStart then APP_START_COLD else APP_START_WARM,
            appStartDurationMilliseconds, "millisecond")] }

/-- The fields of the `ReactNativeTracing` instance that
`startUserInteractionTransaction` consults: the two options, the current
route, the in-flight interaction transaction, and the transaction active
on the current scope (the result of `getActiveTransaction(hub)`). -/
structure UserInteractionTracingState where
  enableUserInteractionTracing : Bool
  hasRoutingInstrumentation : Bool
  currentRoute : Option String
  inflightInteractionTransaction : Option IdleTransactionModel
  activeTransaction : Option IdleTransactionModel
deriving DecidableEq, Repr

/-- The outcome of `startUserInteractionTransaction`: the returned
transaction (or none), the updated in-flight interaction transaction, and
the logger output. -/
structure UserInteractionResult where
  transaction : Option IdleTransactionModel
  newInflight : Option IdleTransactionModel
  logs : List (LogLevel × String)
deriving DecidableEq, Repr

/-- `startUserInteractionTransaction`: rejects, in the order of the
source, when user-interaction tracing is disabled, when no routing
instrumentation is set, when the element identifier is undefined, when no
current route is known, and (with a warning) when a transaction that is
not the in-flight interaction transaction is active on the scope.
Otherwise it cancels any in-flight interaction transaction and starts an
idle transaction named route dot element identifier; its span identifier
comes from `_startIdleTransaction`, passed here as `freshSpanId`. -/
def startUserInteractionTransaction (st : UserInteractionTracingState)
    (freshSpanId : Nat) (elementId : Option String) (opName : String) :
    UserInteractionResult :=
  if !st.enableUserInteractionTracing then
    { transaction := none, newInflight := st.inflightInteractionTransaction
      logs := [(LogLevel.log, "User Interaction Tracing is disabled.")] }
  else if !st.hasRoutingInstrumentation then
    { transaction := none, newInflight := st.inflightInteractionTransaction
      logs := [(LogLevel.error,
        "User Interaction Tracing is not working because no routing instrumentation is set.")] }
  else
    match elementId with
    | none =>
      { transaction := none, newInflight := st.inflightInteractionTransaction
        logs := [(LogLevel.log,
          "User Interaction Tracing can not create transaction with undefined elementId.")] }
    | some elemId =>
      match st.currentRoute with
      | none =>
        { transaction := none, newInflight := st.inflightInteractionTransaction
          logs := [(LogLevel.log,
            "User Interaction Tracing can not create transaction without a current route.")] }
      | some route =>
        let activeTransactionIsNotInteraction :=
          match st.activeTransaction, st.inflightInteractionTransaction with
          | none, _ => true
          | some _, none => true
          | some active, some inflight => active.spanId != inflight.spanId
        if st.activeTransaction.isSome && activeTransactionIsNotInteraction then
          { transaction := none, newInflight := st.inflightInteractionTransaction
            logs := [(LogLevel.warn,
              "Did not create transaction because an active transaction exists on the scope.")] }
        else
          let newTx : IdleTransactionModel :=
            { spanId := freshSpanId, name := route ++ "." ++ elemId, op := opName
              sampled := none, startTimestamp := 0, spanRecorder := none
              children := [], measurements := [], routeData := none }
          { transaction := some newTx, newInflight := some newTx
            logs := [(LogLevel.log, "User Interaction Tracing Created transaction.")] }

/-- The before-finish callback registered by `_createRouteTransaction`
when `ignoreEmptyBackNavigationTransactions` is enabled (the flag is the
first parameter, standing for the registration guard): on a transaction
whose route data is marked as previously seen and whose recorder holds no
span other than the transaction root span, initial-display spans and
navigation-processing spans, the sampling decision is forced to false. -/
def ignoreEmptyBackNavigationBeforeFinish
    (ignoreEmptyBackNavigationTransactions : Bool)
    (tx : IdleTransactionModel) : IdleTransactionModel :=
  if !ignoreEmptyBackNavigationTransactions then tx
  else
    let hasBeenSeen :=
      match tx.routeData with
      | some route => route.hasBeenSeen
      | none => false
    let noMeaningfulChildSpans :=
      match tx.spanRecorder with
      | none => true
      | some spans =>
        (spans.filter (fun span =>
          span.spanId != tx.spanId &&
          span.op != some "ui.load.initial_display" &&
          span.op != some "navigation.processing")).length == 0
    if hasBeenSeen && noMeaningfulChildSpans then
      { tx with sampled := some false }
    else tx

/-! ## Theorems -/

/-- Lookup in an appended association list: the first list wins. -/
theorem lookup_append {V : Type} (l₁ l₂ : List (String × V)) (k : String) :
    (l₁ ++ l₂).lookup k =
      match l₁.lookup k with
      | some v => some v
      | none => l₂.lookup k := by
  induction l₁ with
  | nil => simp [List.lookup]
  | cons p t ih =>
    obtain ⟨k₁, v⟩ := p
    cases h : (k == k₁) <;> simp [List.lookup, h, ih]

/-- Lookup in a JS object spread: the entry of the second object wins for
keys of the second object, and entries of the first object survive for
all other keys. -/
theorem spreadMerge_lookup {V : Type} (a b : List (String × V)) (k : String) :
    (spreadMerge a b).lookup k = (b.lookup k).elim (a.lookup k) some := by
  rw [spreadMerge, lookup_append]
  cases hb : b.lookup k with
  | none =>
    have hfilter : (a.filter (fun p => (b.lookup p.1).isNone)).lookup k = a.lookup k := by
      induction a with
      | nil => rfl
      | cons p t ih =>
        obtain ⟨k₁, v⟩ := p
        by_cases hk : k = k₁
        · subst hk
          simp [List.filter_cons, hb, List.lookup]
        · have hbeq : (k == k₁) = false := by simp [hk]
          cases hbp : (b.lookup k₁).isNone <;>
            simp [List.filter_cons, hbp, List.lookup, hbeq, ih]
    rw [hfilter]
    cases a.lookup k <;> simp
  | some v =>
    simp only [Option.elim]
    have hfilter : (a.filter (fun p => (b.lookup p.1).isNone)).lookup k = none := by
      induction a with
      | nil => rfl
      | cons p t ih =>
        obtain ⟨k₁, v'⟩ := p
        by_cases hk : k = k₁
        · subst hk
          simp [List.filter_cons, hb, ih]
        · have hbeq : (k == k₁) = false := by simp [hk]
          cases hbp : (b.lookup k₁).isNone <;>
            simp [List.filter_cons, hbp, List.lookup, hbeq, ih]
    rw [hfilter]

/-- C1: merging a JS (Hermes) profile with F frames and a native profile
with F' frames through `addNativeThreadCpuProfileToHermes` yields exactly
F + F' frames, and every native-derived stack appears with each of its
frame ids shifted by exactly F, the count of JS frames already present. -/
theorem merge_frame_count_and_stack_offset (platformIsIOS : Bool)
    (hermes native : ThreadCpuProfile) (active : Option String) :
    (addNativeThreadCpuProfileToHermes platformIsIOS hermes native active).frames.length
      = hermes.frames.length + native.frames.length ∧
    (addNativeThreadCpuProfileToHermes platformIsIOS hermes native active).«stacks».length
      = hermes.«stacks».length + native.«stacks».length ∧
    ∀ i : Nat, i < native.«stacks».length →
      (addNativeThreadCpuProfileToHermes platformIsIOS hermes native active).«stacks»[hermes.«stacks».length + i]?
        = (native.«stacks»[i]?).map
            (fun stack => stack.map (fun frameId => frameId + hermes.frames.length)) := by
  refine ⟨?_, ?_, ?_⟩
  · simp [addNativeThreadCpuProfileToHermes]
  · simp [addNativeThreadCpuProfileToHermes]
  · intro i hi
    simp [addNativeThreadCpuProfileToHermes, List.getElem?_append_right, List.getElem?_map]

/-- C4: in the merged sample set produced by
`addNativeThreadCpuProfileToHermes`, every JS-origin sample is retained
unchanged (as the prefix), every native-origin sample whose thread id
differs from the active JS thread id appears with its stack id offset by
the count of JS stacks, and every sample beyond the JS prefix is such a
remapped native sample whose thread id differs from the active JS thread
id (so native samples on the active JS thread are excluded). -/
theorem merge_sample_filter_and_remap (platformIsIOS : Bool)
    (hermes native : ThreadCpuProfile) (active : Option String) :
    (addNativeThreadCpuProfileToHermes platformIsIOS hermes native active).samples.take
        hermes.samples.length = hermes.samples ∧
    (∀ sample ∈ native.samples, some sample.thread_id ≠ active →
      { sample with stack_id := hermes.«stacks».length + sample.stack_id }
        ∈ (addNativeThreadCpuProfileToHermes platformIsIOS hermes native active).samples) ∧
    (∀ sample ∈ (addNativeThreadCpuProfileToHermes platformIsIOS hermes native active).samples.drop
        hermes.samples.length,
      ∃ original ∈ native.samples, some original.thread_id ≠ active ∧
        sample = { original with stack_id := hermes.«stacks».length + original.stack_id }) := by
  refine ⟨?_, ?_, ?_⟩
  · simp [addNativeThreadCpuProfileToHermes, List.take_left]
  · intro sample hmem hne
    simp only [addNativeThreadCpuProfileToHermes, List.mem_append]
    right
    exact List.mem_map_of_mem _ (List.mem_filter.mpr ⟨hmem, by simpa using hne⟩)
  · intro sample hmem
    simp only [addNativeThreadCpuProfileToHermes, List.drop_left] at hmem
    obtain ⟨original, horig, rfl⟩ := List.mem_map.mp hmem
    obtain ⟨hmemN, hne⟩ := List.mem_filter.mp horig
    exact ⟨original, hmemN, by simpa using hne, rfl⟩

/-- C10: for thread and queue metadata, `addNativeThreadCpuProfileToHermes`
keeps the JS (Hermes) entry for every key present in both sources and
preserves keys present in only one source. -/
theorem merge_metadata_prefers_hermes (platformIsIOS : Bool)
    (hermes native : ThreadCpuProfile) (active : Option String) (k : String) :
    ((addNativeThreadCpuProfileToHermes platformIsIOS hermes native active).thread_metadata.lookup k
      = (hermes.thread_metadata.lookup k).elim (native.thread_metadata.lookup k) some) ∧
    ((addNativeThreadCpuProfileToHermes platformIsIOS hermes native active).queue_metadata.lookup k
      = (hermes.queue_metadata.lookup k).elim (native.queue_metadata.lookup k) some) := by
  have e1 : (addNativeThreadCpuProfileToHermes platformIsIOS hermes native active).thread_metadata
      = spreadMerge native.thread_metadata hermes.thread_metadata := rfl
  have e2 : (addNativeThreadCpuProfileToHermes platformIsIOS hermes native active).queue_metadata
      = spreadMerge native.queue_metadata hermes.queue_metadata := rfl
  rw [e1, e2]
  exact ⟨spreadMerge_lookup native.thread_metadata hermes.thread_metadata k,
    spreadMerge_lookup native.queue_metadata hermes.queue_metadata k⟩

/-- C2: at most one Profile Capture Session is active at any instant.
When `_startCurrentProfile` runs while a session is active, the existing
session is force-finished first: the hard-stop timer is cleared, the old
profile is flushed into the queue under the old identifier (or discarded
when the stop pipeline fails, leaving the queue untouched),
`_currentProfile` is cleared before any new identifier is assigned, and
any newly assigned identifier differs from the old one. The hypothesis
`hfresh` is the fresh-supply invariant: every previously assigned
identifier was drawn from the supply, so it lies below the counter. -/
theorem startCurrentProfile_forces_single_session
    (isCurrentlyActive shouldStartProfiling : Bool)
    (startProfilingResult : Option Nat) (stopResult : Option ThreadCpuProfile)
    (s : ProfilingState) (oldId oldStartNs : Nat)
    (hcur : s.currentProfile = some (oldId, oldStartNs))
    (hfresh : oldId < s.nextProfileId) :
    (finishCurrentProfile stopResult s).currentProfile = none ∧
    (∀ profile, stopResult = some profile →
      (finishCurrentProfile stopResult s).queue = queueAdd oldId profile s.queue) ∧
    (stopResult = none → (finishCurrentProfile stopResult s).queue = s.queue) ∧
    (∀ newId newStartNs,
      (startCurrentProfile isCurrentlyActive shouldStartProfiling
          startProfilingResult stopResult s).currentProfile = some (newId, newStartNs) →
      newId ≠ oldId) := by
  refine ⟨?_, ?_, ?_, ?_⟩
  · cases stopResult <;> simp [finishCurrentProfile, hcur]
  · intro profile hp
    subst hp
    simp [finishCurrentProfile, hcur]
  · intro hp
    subst hp
    simp [finishCurrentProfile, hcur]
  · intro newId newStartNs hnew
    cases isCurrentlyActive <;> cases shouldStartProfiling <;>
      cases startProfilingResult <;> cases stopResult <;>
        simp [startCurrentProfile, startNewProfile, finishCurrentProfile, hcur] at hnew <;>
          omega

/-- Witness for `startCurrentProfile_forces_single_session`: a concrete
state with active session identifier 0 and supply counter 1; the restart
clears the session and assigns the distinct identifier 1. -/
theorem startCurrentProfile_forces_single_session_witness :
    (finishCurrentProfile none
      { currentProfile := some (0, 5), timeoutArmed := true, queue := []
        nextProfileId := 1, logs := [] }).currentProfile = none ∧
    (startCurrentProfile true true (some 100) none
      { currentProfile := some (0, 5), timeoutArmed := true, queue := []
        nextProfileId := 1, logs := [] }).currentProfile = some (1, 100) ∧
    (1 : Nat) ≠ 0 := by
  have h := startCurrentProfile_forces_single_session true true (some 100) none
    { currentProfile := some (0, 5), timeoutArmed := true, queue := []
      nextProfileId := 1, logs := [] } 0 5 rfl (by decide)
  exact ⟨h.1, by decide, h.2.2.2 1 100 (by decide)⟩

/-- C3: in every listening cycle, the confirming-event flag is checked
immediately and, when unconfirmed, exactly once more after the single
fixed 3000 millisecond delay; a cycle whose confirming event never
arrives emits exactly one fallback event carrying the precomputed
timestamp and tagged as fallback; a cycle whose confirming event arrives
before either check emits nothing; and no cycle leaves a re-check
pending. -/
theorem frame_signal_fallback_protocol (fallbackSeconds : ℚ) :
    (∀ arrival, arrival ≠ ConfirmingEventArrival.never →
      (waitForNativeResponseOrFallback fallbackSeconds arrival).emitted = []) ∧
    ((waitForNativeResponseOrFallback fallbackSeconds ConfirmingEventArrival.never).emitted
      = [{ newFrameTimestampInSeconds := fallbackSeconds, isFallback := true }]) ∧
    (∀ arrival,
      (waitForNativeResponseOrFallback fallbackSeconds arrival).pendingRecheckDelayMs = none) ∧
    ((checkNativeResponse fallbackSeconds
      { nativeEmitterCalled := false, isListening := true, firstAttemptCompleted := false
        pendingRecheckDelayMs := none, emitted := [] }).pendingRecheckDelayMs = some 3000) := by
  refine ⟨?_, ?_, ?_, ?_⟩
  · intro arrival h
    cases arrival <;>
      simp_all [waitForNativeResponseOrFallback, checkNativeResponse, onConfirmingEvent]
  · simp [waitForNativeResponseOrFallback, checkNativeResponse, onConfirmingEvent]
  · intro arrival
    cases arrival <;>
      simp [waitForNativeResponseOrFallback, checkNativeResponse, onConfirmingEvent]
  · simp [checkNativeResponse]

/-- Witness for `frame_signal_fallback_protocol`: with the confirming
event arriving between the two checks nothing is emitted, and with no
confirming event exactly the tagged fallback with the precomputed
timestamp is emitted. -/
theorem frame_signal_fallback_protocol_witness :
    (waitForNativeResponseOrFallback 1 ConfirmingEventArrival.beforeSecondCheck).emitted = [] ∧
    (waitForNativeResponseOrFallback 1 ConfirmingEventArrival.never).emitted
      = [{ newFrameTimestampInSeconds := 1, isFallback := true }] := by
  have h := frame_signal_fallback_protocol 1
  exact ⟨h.1 ConfirmingEventArrival.beforeSecondCheck (by decide), h.2.1⟩

/-- After removing an identifier from the Profile Queue, looking it up
finds nothing. -/
theorem queueGet_queueDelete (key : Nat) (queue : List (Nat × ThreadCpuProfile)) :
    queueGet key (queueDelete key queue) = none := by
  induction queue with
  | nil => rfl
  | cons p t ih =>
    obtain ⟨k₁, v⟩ := p
    by_cases h : k₁ = key
    · subst h
      simpa [queueDelete, List.filter_cons] using ih
    · have hb : (k₁ != key) = true := by simp [h]
      have hb2 : (key == k₁) = false := by simp [Ne.symm h]
      simpa [queueDelete, List.filter_cons, hb, queueGet, List.lookup, hb2] using ih

/-- Removing an identifier that the Profile Queue does not hold leaves the
queue unchanged. -/
theorem queueDelete_of_get_none (key : Nat) (queue : List (Nat × ThreadCpuProfile))
    (h : queueGet key queue = none) : queueDelete key queue = queue := by
  induction queue with
  | nil => rfl
  | cons p t ih =>
    obtain ⟨k₁, v⟩ := p
    by_cases hk : key = k₁
    · subst hk
      simp [queueGet, List.lookup] at h
    · have hb : (key == k₁) = false := by simp [hk]
      have ht : queueGet key t = none := by
        simpa [queueGet, List.lookup, hb] using h
      have hb2 : (k₁ != key) = true := by simp [Ne.symm hk]
      have hstep : queueDelete key ((k₁, v) :: t) = (k₁, v) :: queueDelete key t := by
        simp [queueDelete, List.filter_cons, hb2]
      rw [hstep, ih ht]

/-- C5: once `_createProfileEventFor` has processed a report whose profile
identifier is present, the queue no longer holds that identifier, so any
later lookup misses; and on a report whose identifier has no queue entry
it returns no profile event and leaves the queue unchanged (the miss is
logged and nothing is thrown: the embedding is a total function). -/
theorem createProfileEventFor_dequeue_semantics (ev : TransactionEvent)
    (queue : List (Nat × ThreadCpuProfile)) (profileId : Nat)
    (hpid : eventProfileId ev = some profileId) :
    queueGet profileId (createProfileEventFor ev queue).2.2 = none ∧
    (queueGet profileId queue = none →
      (createProfileEventFor ev queue).1 = none ∧
      (createProfileEventFor ev queue).2.2 = queue) := by
  refine ⟨?_, ?_⟩
  · cases hq : queueGet profileId queue <;>
      simp [createProfileEventFor, hpid, hq, queueGet_queueDelete]
  · intro hq
    have hdel := queueDelete_of_get_none profileId queue hq
    simp [createProfileEventFor, hpid, hq, hdel]

/-- The empty thread CPU profile, a concrete payload for evaluations. -/
def emptyProfile : ThreadCpuProfile :=
  { frames := [], «stacks» := [], samples := [], thread_metadata := [], queue_metadata := [] }

/-- A concrete report carrying profile identifier 7 under the `profile`
context key and no literal `.profile` context key — the shape every
profiled transaction produced by the integration has. -/
def sampleProfiledReport : TransactionEvent :=
  { event_id := some 1
    contexts := some { profile := some { profile_id := some 7 }, dotProfile := none } }

/-- Witness for `createProfileEventFor_dequeue_semantics` on an empty
queue: the report references identifier 7, the lookup misses, no profile
event is produced and the queue stays empty. -/
theorem createProfileEventFor_dequeue_semantics_witness :
    queueGet 7 (createProfileEventFor sampleProfiledReport []).2.2 = none ∧
    (createProfileEventFor sampleProfiledReport []).1 = none := by
  have h := createProfileEventFor_dequeue_semantics sampleProfiledReport [] 7 rfl
  exact ⟨h.1, (h.2 rfl).1⟩

/-- C6 (evaluation at the failing input): the source comments that it
removes the profile context from the report before sending, but the
deletion is guarded by the literal context key `.profile`. A report whose
identifier sits under the `profile` context key — the key the identifier
was just read from — and which has no `.profile` key is matched to a
queued profile, yet its `profile` context survives in the outgoing
report. -/
theorem createProfileEventFor_retains_profile_context :
    ((createProfileEventFor sampleProfiledReport [(7, emptyProfile)]).2.1.contexts.bind
      (fun c => c.profile)).isSome = true ∧
    (createProfileEventFor sampleProfiledReport [(7, emptyProfile)]).1.isSome = true :=
  ⟨rfl, rfl⟩

/-- C7: whenever the computed app-start duration in milliseconds is at
least 60000, `_addAppStartData` leaves the transaction untouched (no
child span and no measurement is added); whenever the duration is
positive and below 60000, the cold or warm app-start measurement matching
`isColdStart` is set to that duration in milliseconds. -/
theorem addAppStartData_outlier_filter_and_measurement
    (finishTs : ℚ) (tx : IdleTransactionModel) (appStart : NativeAppStartResponse)
    (d : ℚ) (hd : getAppStartDurationMilliseconds (some finishTs) appStart = some d) :
    (maxAppStart ≤ d → addAppStartData (some finishTs) tx appStart = tx) ∧
    (0 < d → d < maxAppStart →
      ((if appStart.isColdStart then APP_START_COLD else APP_START_WARM), d, "millisecond")
        ∈ (addAppStartData (some finishTs) tx appStart).measurements) := by
  constructor
  · intro hge
    by_cases h0 : d = 0
    · simp [addAppStartData, hd, h0]
    · simp [addAppStartData, hd, h0, hge]
  · intro hpos hlt
    have h0 : ¬ d = 0 := by positivity
    have hge : ¬ maxAppStart ≤ d := not_le.mpr hlt
    simp [addAppStartData, hd, h0, hge]

/-- An idle transaction with no recorded spans, children, measurements or
route data, a concrete base point for evaluations. -/
def emptyTransaction : IdleTransactionModel :=
  { spanId := 0, name := "", op := "", sampled := none, startTimestamp := 0
    spanRecorder := none, children := [], measurements := [], routeData := none }

/-- A concrete cold native app start record at epoch 0. -/
def coldAppStart : NativeAppStartResponse :=
  { appStartTime := 0, isColdStart := true, didFetchAppStart := false }

/-- Witness for `addAppStartData_outlier_filter_and_measurement`: a
70000 ms app start (finish at 70 s) is discarded; a 500 ms one (finish at
0.5 s) lands as the cold app start measurement. -/
theorem addAppStartData_outlier_filter_and_measurement_witness :
    addAppStartData (some 70) emptyTransaction coldAppStart = emptyTransaction ∧
    (APP_START_COLD, (500 : ℚ), "millisecond")
      ∈ (addAppStartData (some (1 / 2)) emptyTransaction coldAppStart).measurements := by
  have h1 := addAppStartData_outlier_filter_and_measurement 70 emptyTransaction
    coldAppStart 70000 (by norm_num [getAppStartDurationMilliseconds, coldAppStart])
  have h2 := addAppStartData_outlier_filter_and_measurement (1 / 2) emptyTransaction
    coldAppStart 500 (by norm_num [getAppStartDurationMilliseconds, coldAppStart])
  refine ⟨h1.1 (by norm_num [maxAppStart]), ?_⟩
  have := h2.2 (by norm_num) (by norm_num [maxAppStart])
  simpa [coldAppStart] using this

/-- C8: `startUserInteractionTransaction` returns no transaction when
user-interaction tracing is disabled, when no routing instrumentation is
configured, when the element identifier is undefined, or when no current
route is known; and when all those guards pass but a transaction that is
not the in-flight interaction transaction is active on the scope, it
returns no transaction and logs a warning. -/
theorem startUserInteractionTransaction_guards (st : UserInteractionTracingState)
    (freshSpanId : Nat) (elementId : Option String) (opName : String) :
    (st.enableUserInteractionTracing = false →
      (startUserInteractionTransaction st freshSpanId elementId opName).transaction = none) ∧
    (st.hasRoutingInstrumentation = false →
      (startUserInteractionTransaction st freshSpanId elementId opName).transaction = none) ∧
    (elementId = none →
      (startUserInteractionTransaction st freshSpanId elementId opName).transaction = none) ∧
    (st.currentRoute = none →
      (startUserInteractionTransaction st freshSpanId elementId opName).transaction = none) ∧
    (st.enableUserInteractionTracing = true → st.hasRoutingInstrumentation = true →
      ∀ elemId, elementId = some elemId → ∀ route, st.currentRoute = some route →
      ∀ active, st.activeTransaction = some active →
      (∀ inflight, st.inflightInteractionTransaction = some inflight →
        inflight.spanId ≠ active.spanId) →
      (startUserInteractionTransaction st freshSpanId elementId opName).transaction = none ∧
      ∃ msg, (LogLevel.warn, msg) ∈
        (startUserInteractionTransaction st freshSpanId elementId opName).logs) := by
  refine ⟨?_, ?_, ?_, ?_, ?_⟩
  · intro h
    simp [startUserInteractionTransaction, h]
  · intro h
    cases he : st.enableUserInteractionTracing <;>
      simp [startUserInteractionTransaction, he, h]
  · intro h
    subst h
    cases he : st.enableUserInteractionTracing <;>
      cases hr : st.hasRoutingInstrumentation <;>
        simp [startUserInteractionTransaction, he, hr]
  · intro h
    cases he : st.enableUserInteractionTracing <;>
      cases hr : st.hasRoutingInstrumentation <;>
        cases elementId <;>
          simp [startUserInteractionTransaction, he, hr, h]
  · intro he hr elemId helem route hroute active hactive hinfl
    subst helem
    cases hi : st.inflightInteractionTransaction with
    | none =>
      refine ⟨?_, "Did not create transaction because an active transaction exists on the scope.", ?_⟩ <;>
        simp [startUserInteractionTransaction, he, hr, hroute, hactive, hi]
    | some inflight =>
      have hne : (active.spanId != inflight.spanId) = true := by
        simpa [bne_iff_ne] using Ne.symm (hinfl inflight hi)
      refine ⟨?_, "Did not create transaction because an active transaction exists on the scope.", ?_⟩ <;>
        simp [startUserInteractionTransaction, he, hr, hroute, hactive, hi, hne]

/-- Witness for `startUserInteractionTransaction_guards`: all guards pass
but an unrelated transaction is active on the scope, so no transaction is
created and a warning is logged. -/
theorem startUserInteractionTransaction_guards_witness :
    (startUserInteractionTransaction
      { enableUserInteractionTracing := true, hasRoutingInstrumentation := true
        currentRoute := some "Home", inflightInteractionTransaction := none
        activeTransaction := some { emptyTransaction with spanId := 5 } }
      1 (some "login_button") "ui.action.touch").transaction = none ∧
    ((startUserInteractionTransaction
      { enableUserInteractionTracing := true, hasRoutingInstrumentation := true
        currentRoute := some "Home", inflightInteractionTransaction := none
        activeTransaction := some { emptyTransaction with spanId := 5 } }
      1 (some "login_button") "ui.action.touch").logs.any
        (fun entry => entry.1 == LogLevel.warn)) = true := by
  have h := (startUserInteractionTransaction_guards
    { enableUserInteractionTracing := true, hasRoutingInstrumentation := true
      currentRoute := some "Home", inflightInteractionTransaction := none
      activeTransaction := some { emptyTransaction with spanId := 5 } }
    1 (some "login_button") "ui.action.touch").2.2.2.2 rfl rfl
    "login_button" rfl "Home" rfl { emptyTransaction with spanId := 5 } rfl
    (fun inflight hi => by simp at hi)
  obtain ⟨hnone, msg, hmem⟩ := h
  exact ⟨hnone, List.any_eq_true.mpr ⟨(LogLevel.warn, msg), hmem, by simp⟩⟩

/-- C9: when `ignoreEmptyBackNavigationTransactions` is enabled, the
before-finish callback forces the sampling decision to false exactly on
transactions of a previously-seen route whose recorder holds no span
beyond the transaction root span, initial-display spans and
navigation-processing spans; a transaction with any other recorded child
span keeps its sampling decision. -/
theorem ignoreEmptyBackNavigation_sampling (tx : IdleTransactionModel) :
    (tx.routeData = some { hasBeenSeen := true } →
      (∀ spans, tx.spanRecorder = some spans →
        ∀ span ∈ spans, span.spanId = tx.spanId ∨
          span.op = some "ui.load.initial_display" ∨
          span.op = some "navigation.processing") →
      (ignoreEmptyBackNavigationBeforeFinish true tx).sampled = some false) ∧
    (∀ spans, tx.spanRecorder = some spans →
      (∃ span ∈ spans, span.spanId ≠ tx.spanId ∧
        span.op ≠ some "ui.load.initial_display" ∧
        span.op ≠ some "navigation.processing") →
      (ignoreEmptyBackNavigationBeforeFinish true tx).sampled = tx.sampled) := by
  constructor
  · intro hroute hspans
    cases hrec : tx.spanRecorder with
    | none =>
      simp [ignoreEmptyBackNavigationBeforeFinish, hroute, hrec]
    | some spans =>
      have hempty : spans.filter (fun span =>
          span.spanId != tx.spanId &&
          span.op != some "ui.load.initial_display" &&
          span.op != some "navigation.processing") = [] := by
        rw [List.filter_eq_nil_iff]
        intro span hmem
        rcases hspans spans hrec span hmem with h | h | h <;> simp [h]
      simp [ignoreEmptyBackNavigationBeforeFinish, hroute, hrec, hempty]
  · intro spans hrec ⟨span, hmem, h1, h2, h3⟩
    have hkeep : (span.spanId != tx.spanId &&
        span.op != some "ui.load.initial_display" &&
        span.op != some "navigation.processing") = true := by
      simp [h1, h2, h3]
    have hne : spans.filter (fun span =>
        span.spanId != tx.spanId &&
        span.op != some "ui.load.initial_display" &&
        span.op != some "navigation.processing") ≠ [] :=
      List.ne_nil_of_mem (List.mem_filter.mpr ⟨hmem, hkeep⟩)
    have hlen : ((spans.filter (fun span =>
        span.spanId != tx.spanId &&
        span.op != some "ui.load.initial_display" &&
        span.op != some "navigation.processing")).length == 0) = false := by
      simpa [List.length_eq_zero] using hne
    simp [ignoreEmptyBackNavigationBeforeFinish, hrec, hlen]

/-- Witness for `ignoreEmptyBackNavigation_sampling`: a sampled
transaction on a previously-seen route whose recorder holds only its own
root span and an initial-display span is forced to unsampled. -/
theorem ignoreEmptyBackNavigation_sampling_witness :
    (ignoreEmptyBackNavigationBeforeFinish true
      { emptyTransaction with
          sampled := some true
          routeData := some { hasBeenSeen := true }
          spanRecorder := some
            [{ spanId := 0, op := none, startTimestamp := 0, endTimestamp := none },
             { spanId := 3, op := some "ui.load.initial_display"
               startTimestamp := 0, endTimestamp := none }] }).sampled = some false := by
  have h := (ignoreEmptyBackNavigation_sampling
    { emptyTransaction with
        sampled := some true
        routeData := some { hasBeenSeen := true }
        spanRecorder := some
          [{ spanId := 0, op := none, startTimestamp := 0, endTimestamp := none },
           { spanId := 3, op := some "ui.load.initial_display"
             startTimestamp := 0, endTimestamp := none }] }).1 rfl
  exact h (by
    intro spans hspans span hmem
    cases hspans
    fin_cases hmem <;> simp [emptyTransaction])

/-- A concrete Hermes (JS) profile: two frames, one stack, one sample on
thread 1. -/
def hermesProfileExample : ThreadCpuProfile :=
  { frames := [⟨some "fnA", none, none⟩, ⟨some "fnB", none, none⟩]
    «stacks» := [[0, 1]]
    samples := [{ stack_id := 0, thread_id := "1", elapsed_since_start_ns := "10" }]
    thread_metadata := [("1", { name := some "JavaScriptThread", priority := some 1 })]
    queue_metadata := [] }

/-- A concrete native profile: one frame, one stack, one sample on thread
2 and one on thread 1 (the active JS thread of the example). -/
def nativeProfileExample : ThreadCpuProfile :=
  { frames := [⟨some "nativeFn", some "0x1", none⟩]
    «stacks» := [[0]]
    samples := [{ stack_id := 0, thread_id := "2", elapsed_since_start_ns := "11" },
                { stack_id := 0, thread_id := "1", elapsed_since_start_ns := "12" }]
    thread_metadata := [("1", { name := some "NativeMain", priority := none }),
                        ("2", { name := some "Worker", priority := none })]
    queue_metadata := [] }

/-- Witness for `merge_frame_count_and_stack_offset`: merging the two
example profiles gives 2 + 1 = 3 frames, and the native stack `[0]`
reappears at position 1 with its frame id shifted by the 2 JS frames. -/
theorem merge_frame_count_and_stack_offset_witness :
    (addNativeThreadCpuProfileToHermes true hermesProfileExample
      nativeProfileExample (some "1")).frames.length = 3 ∧
    (addNativeThreadCpuProfileToHermes true hermesProfileExample
      nativeProfileExample (some "1")).«stacks»[1]? = some [2] := by
  have h := merge_frame_count_and_stack_offset true hermesProfileExample
    nativeProfileExample (some "1")
  refine ⟨by simpa [hermesProfileExample, nativeProfileExample] using h.1, ?_⟩
  have h2 := h.2.2 0 (by simp [nativeProfileExample])
  simpa [hermesProfileExample, nativeProfileExample] using h2

/-- Witness for `merge_sample_filter_and_remap`: in the merged example
the JS sample stays as the prefix and the native thread-2 sample appears
with its stack id shifted by the single JS stack. -/
theorem merge_sample_filter_and_remap_witness :
    (addNativeThreadCpuProfileToHermes true hermesProfileExample
      nativeProfileExample (some "1")).samples.take 1 = hermesProfileExample.samples ∧
    ({ stack_id := 1, thread_id := "2", elapsed_since_start_ns := "11" } : ThreadCpuSample)
      ∈ (addNativeThreadCpuProfileToHermes true hermesProfileExample
          nativeProfileExample (some "1")).samples := by
  have h := merge_sample_filter_and_remap true hermesProfileExample
    nativeProfileExample (some "1")
  constructor
  · simpa [hermesProfileExample] using h.1
  · have hm := h.2.1 { stack_id := 0, thread_id := "2", elapsed_since_start_ns := "11" }
      (by simp [nativeProfileExample]) (by simp)
    simpa [hermesProfileExample] using hm

end SentryRN
